import Mathlib

/-!
Verification development for a bulk web-performance auditing tool
(`app.py`, with a superseded early variant `app2.py`).

The pipeline: fetch a sitemap over HTTP, extract the ordered list of page
URLs, run an external auditing process (Lighthouse CLI) on each URL under a
timeout, extract a fixed set of metrics from its JSON artifact, and append
one CSV row per URL to a report file, with a configurable inter-measurement
delay.

The embedding below translates the Python source into Lean: external
effects (HTTP fetch outcome, subprocess outcome, clock) become explicit
parameters; dictionaries of the parsed Lighthouse JSON become optional
numeric fields; Python floats become exact rationals with Python's
round-half-to-even rounding made explicit.
-/

namespace PageSpeed

/-- One metric cell of a result record: either a computed rational number or
the literal failure sentinel string `"Error"` written by
`default_error_values` in `app.py`. -/
inductive MetricVal where
  | num (q : ℚ)
  | err
deriving DecidableEq, Repr

/-- The fixed-shape record returned by `run_lighthouse` in `app.py`: the five
metric fields of the dict
`{"performance": _, "speed_index": _, "lcp": _, "inp": _, "cls": _}`. -/
structure MetricSet where
  performance : MetricVal
  speed_index : MetricVal
  lcp : MetricVal
  inp : MetricVal
  cls : MetricVal
deriving DecidableEq, Repr

/-- The `default_error_values` helper (app.py lines 29-37): every one of the five
metric fields is the sentinel `"Error"`. -/
def default_error_values : MetricSet :=
  { performance := .err
    speed_index := .err
    lcp := .err
    inp := .err
    cls := .err }

/-- Round a rational to the nearest integer, ties to even: the rounding used
by Python's builtin `round` (banker's rounding), applied here to the exact
rational value. -/
def rndHalfEven (q : ℚ) : ℤ :=
  let f : ℤ := ⌊q⌋
  if q - f < 1/2 then f
  else if 1/2 < q - f then f + 1
  else if 2 ∣ f then f else f + 1

/-- Python's `round(x, n)`: round to `n` decimal places, ties to even. -/
def pyRound (q : ℚ) (n : ℕ) : ℚ :=
  (rndHalfEven (q * 10 ^ n) : ℚ) / 10 ^ n

/-- The fields of the parsed Lighthouse JSON artifact that `run_lighthouse`
looks up. A field is `some v` when the chained `.get` lookups
(e.g. `audits.get("speed-index", {}).get("numericValue", 0)`) would find a
numeric value `v`, and `none` when any level is absent, in which case the
chain returns the default `0` (for `inp`, the fallback chain). -/
structure LighthouseData where
  perfScore : Option ℚ
  speedIndex : Option ℚ
  lcpRaw : Option ℚ
  inpRaw : Option ℚ
  fidRaw : Option ℚ
  clsRaw : Option ℚ
deriving DecidableEq, Repr

/-- The metric-extraction block of `run_lighthouse` (app.py lines 70-87),
executed after the artifact has been parsed:

    performance = categories.get("performance", {}).get("score", 0) * 100
    speed_index = audits.get("speed-index", {}).get("numericValue", 0) / 1000
    lcp = audits.get("largest-contentful-paint", {}).get("numericValue", 0) / 1000
    inp = audits.get("interaction-to-next-paint", {}).get("numericValue",
         audits.get("first-input-delay", {}).get("numericValue", 0))
    cls = audits.get("cumulative-layout-shift", {}).get("numericValue", 0)

followed by `round(performance, 1)`, `round(speed_index, 2)`,
`round(lcp, 2)`, `round(inp, 2)`, `round(cls, 3)`. -/
def extractMetrics (d : LighthouseData) : MetricSet :=
  let performance := d.perfScore.getD 0 * 100
  let speed_index := d.speedIndex.getD 0 / 1000
  let lcp := d.lcpRaw.getD 0 / 1000
  let inp := d.inpRaw.getD (d.fidRaw.getD 0)
  let cls := d.clsRaw.getD 0
  { performance := .num (pyRound performance 1)
    speed_index := .num (pyRound speed_index 2)
    lcp := .num (pyRound lcp 2)
    inp := .num (pyRound inp 2)
    cls := .num (pyRound cls 3) }

/-- Outcome of parsing and processing the JSON artifact once the subprocess
has completed and written it. -/
inductive RawOutput where
  | malformed
  | parsed (d : LighthouseData)
  | unextractable
deriving DecidableEq, Repr

/-- Outcome of one invocation of the external Lighthouse subprocess, as
distinguished by the control flow of `run_lighthouse` (app.py lines 39-100):

* `timeout w`: `subprocess.run` raises `TimeoutExpired`; `w` records whether
  the tool had already written the artifact file when the timeout fired.
* `toolMissing`: `subprocess.run` raises `FileNotFoundError` (the
  `lighthouse` binary is not installed).
* `wroteNothing`: the subprocess completed but never wrote the artifact, so
  `open(output_file)` raises `FileNotFoundError`.
* `wrote raw`: the subprocess completed and wrote the artifact; `raw` is the
  result of reading it: `malformed` when `json.load` raises
  `JSONDecodeError`, `parsed d` when it parses to data whose looked-up
  fields are the optional numerics of `d`, `unextractable` when it parses
  but the metric-extraction block raises (schema-shape mismatch caught by
  the final broad `except`). -/
inductive ToolRun where
  | timeout (w : Bool)
  | toolMissing
  | wroteNothing
  | wrote (raw : RawOutput)
deriving DecidableEq, Repr

/-- What `run_lighthouse` leaves behind and returns: the `MetricSet` result
and whether the temporary JSON artifact is still on disk when the function
returns. -/
structure RunResult where
  metrics : MetricSet
  artifactRemains : Bool
deriving DecidableEq, Repr

/-- The `run_lighthouse` function (app.py lines 39-100) as a function of the subprocess
outcome. The success path reads the artifact, parses it, removes it
(`os.remove(output_file)`, line 68), then extracts metrics; every `except`
handler returns `default_error_values`. The `os.remove` call sits between
`json.load` and the extraction block, so the artifact remains on disk
exactly when it was written but `json.load` did not complete: on a timeout
after the write, and on a JSON parse failure. -/
def run_lighthouse : ToolRun → RunResult
  | .timeout w => ⟨default_error_values, w⟩
  | .toolMissing => ⟨default_error_values, false⟩
  | .wroteNothing => ⟨default_error_values, false⟩
  | .wrote .malformed => ⟨default_error_values, true⟩
  | .wrote .unextractable => ⟨default_error_values, false⟩
  | .wrote (.parsed d) => ⟨extractMetrics d, false⟩

/-- Whether the subprocess outcome left a written artifact to clean up. -/
def artifactWritten : ToolRun → Bool
  | .timeout w => w
  | .toolMissing => false
  | .wroteNothing => false
  | .wrote _ => true

/-- Whether control in `run_lighthouse` got past `json.load`, i.e. the
artifact was successfully read and parsed (this is the point after which
`os.remove` has executed). -/
def parseSucceeded : ToolRun → Bool
  | .wrote (.parsed _) => true
  | .wrote .unextractable => true
  | _ => false

/-! ### Sitemap XML model

`xml.etree.ElementTree` represents a namespaced tag as the expanded name
`{uri}localname` and an unqualified tag as the bare local name. We model an
expanded name structurally: an optional namespace URI plus a local name. -/

/-- An XML expanded tag name: `uri = some u` models ElementTree's
`{u}name`, `uri = none` models the unqualified form. -/
structure Tag where
  uri : Option String
  name : String
deriving DecidableEq, Repr

/-- An XML element tree: expanded tag, optional text content
(ElementTree's `.text`, `None` for an empty element), and the child
elements in document order. -/
inductive XElem where
  | node (tag : Tag) (text : Option String) (children : List XElem)

/-- The tag of an element. -/
def XElem.tag : XElem → Tag
  | .node t _ _ => t

/-- The text content of an element. -/
def XElem.text : XElem → Option String
  | .node _ x _ => x

/-- The children of an element. -/
def XElem.children : XElem → List XElem
  | .node _ _ c => c

/-- The sitemaps.org namespace URI used by both variants of
`get_urls_from_sitemap`. -/
def sitemapNs : String := "http://www.sitemaps.org/schemas/sitemap/0.9"

/-- All proper descendants of the elements of `l` including the elements
themselves, in document (preorder) order: the elements matched by an
ElementTree `.//` step applied at the parent of `l`. -/
def descL : List XElem → List XElem
  | [] => []
  | .node t x cs :: rest => .node t x cs :: (descL cs ++ descL rest)

/-- The query `root.findall('.//ns:url/ns:loc', {'ns': sitemapNs})` (app.py line 21):
every descendant of `root` whose expanded tag is `{sitemapNs}url`, and for
each, its children whose expanded tag is `{sitemapNs}loc`, in document
order. An element with an unqualified `url` or `loc` tag never matches,
because the path's prefixes expand to the namespaced form. -/
def urlLocs (root : XElem) : List XElem :=
  ((descL root.children).filter (fun e => e.tag = Tag.mk (some sitemapNs) "url")).flatMap
    (fun u => u.children.filter (fun e => e.tag = Tag.mk (some sitemapNs) "loc"))

/-- Outcome of the sitemap HTTP fetch plus XML parse, as distinguished by
the control flow of `get_urls_from_sitemap` (app.py lines 12-27):

* `netError`: `requests.get` raises (network failure / timeout).
* `httpError`: the response has a non-success status, so
  `response.raise_for_status()` raises.
* `ok none`: a success response whose body `ET.fromstring` cannot parse
  (malformed XML, raises `ParseError`).
* `ok (some root)`: a success response parsing to the element tree
  `root`. -/
inductive FetchResult where
  | netError
  | httpError
  | ok (doc : Option XElem)

/-- The `get_urls_from_sitemap` function (app.py lines 12-27): on any exception raised by
the fetch, the status check or the XML parse, the `except` handler returns
`[]`; otherwise the `.text` of each matched `url/loc` element, in document
order. Total by construction — the Python function never propagates an
exception. -/
def get_urls_from_sitemap : FetchResult → List (Option String)
  | .netError => []
  | .httpError => []
  | .ok none => []
  | .ok (some root) => (urlLocs root).map XElem.text

/-! ### Report naming -/

/-- The characters after the first `//` of a URL, or `none` when there is
no `//` (no netloc present). -/
def afterDoubleSlash : List Char → Option (List Char)
  | [] => none
  | '/' :: '/' :: rest => some rest
  | _ :: rest => afterDoubleSlash rest

/-- The value `urllib.parse.urlparse(u).netloc` for an absolute URL: the part after
the first `//`, up to the next `/`, `?` or `#`. -/
def urlparse_netloc (u : String) : String :=
  match afterDoubleSlash u.toList with
  | none => ""
  | some rest => String.mk (rest.takeWhile (fun c => !(c = '/' || c = '?' || c = '#')))

/-- One fuel-indexed scan step of Python's `str.replace`: at each position,
when the (nonempty) pattern matches, emit the replacement and skip past the
match, else emit the character and move on. Each step consumes at least one
character, so `fuel = s.length` suffices. -/
def replaceAllAux (pat rep : List Char) : ℕ → List Char → List Char
  | 0, s => s
  | _ + 1, [] => []
  | fuel + 1, c :: rest =>
      if pat.isPrefixOf (c :: rest) && !pat.isEmpty then
        rep ++ replaceAllAux pat rep fuel ((c :: rest).drop pat.length)
      else
        c :: replaceAllAux pat rep fuel rest

/-- Python's `s.replace(pat, rep)` on character lists: replace every
non-overlapping occurrence of `pat`, scanning left to right. -/
def replaceAll (pat rep s : List Char) : List Char :=
  replaceAllAux pat rep s.length s

/-- The `extract_domain` function (app.py lines 102-105):
`urlparse(sitemap_url).netloc.replace("www.", "").split(":")[0]`. The final
`.split(":")[0]` keeps the characters before the first `:`. Note that
Python's `replace` removes every occurrence of `"www."`, not only a leading
one. -/
def extract_domain (sitemap_url : String) : String :=
  let netloc := urlparse_netloc sitemap_url
  let stripped := replaceAll "www.".toList [] netloc.toList
  String.mk (stripped.takeWhile (fun c => !(c = ':')))

/-! ### Orchestration loop (`main`, app.py lines 107-172)

The loop body opens the CSV in append mode, writes one complete row, and
closes the handle (the `with open(..., "a")` block) before sleeping, so a
row append is atomic in the model: the report state is the list of complete
rows written so far. External effects are an environment: the outcome of
the `i`-th Lighthouse invocation and the `datetime.now()` string observed
when writing the `i`-th row. -/

/-- One CSV data row of the report: the URL cell (the sitemap `loc` text)
followed by the five metric cells and the measurement-time cell
(app.py lines 152-162). -/
structure Row where
  url : Option String
  metrics : MetricSet
  measuredAt : String
deriving DecidableEq, Repr

/-- The external world as seen by the loop: `outcome i` is the result of
the Lighthouse subprocess run for the `i`-th URL (1-based, matching
`enumerate(urls, 1)`), and `timeAt i` the completion timestamp string
written into that row. -/
structure Env where
  outcome : ℕ → ToolRun
  timeAt : ℕ → String

/-- The row that iteration `i` of the loop appends for URL `u`. -/
def mkRow (env : Env) (i : ℕ) (u : Option String) : Row :=
  { url := u
    metrics := (run_lighthouse (env.outcome i)).metrics
    measuredAt := env.timeAt i }

/-- Mutable state threaded through the loop: the data rows appended so far
and the accumulated `time.sleep` calls (count and total seconds). -/
structure LoopState where
  rows : List Row
  sleepCount : ℕ
  sleepTotal : ℕ
deriving DecidableEq, Repr

/-- The initial loop state: no rows, no sleeps. -/
def initState : LoopState := ⟨[], 0, 0⟩

/-- The `for i, url in enumerate(urls, 1)` loop of `main` (app.py lines
144-170): measure the URL, append one complete row (open/write/close), and
`time.sleep(delay)` only when `i < len(urls)` — `total` is `len(urls)`. -/
def runLoop (env : Env) (delay total : ℕ) : List (Option String) → ℕ → LoopState → LoopState
  | [], _, s => s
  | u :: rest, i, s =>
      let s1 : LoopState := { s with rows := s.rows ++ [mkRow env i u] }
      let s2 : LoopState :=
        if i < total then
          { s1 with sleepCount := s1.sleepCount + 1, sleepTotal := s1.sleepTotal + delay }
        else s1
      runLoop env delay total rest (i + 1) s2

/-- The header row `main` writes when it creates the CSV (app.py lines
131-141). The final column header in the source is the Indonesian
`"Waktu Pengukuran"` (measurement time). -/
def headerRow : List String :=
  ["URL", "Performance Score", "Speed Index (s)", "LCP (s)", "INP (ms)", "CLS",
   "Waktu Pengukuran"]

/-- The observable outcome of one `main` run: whether the report file was
created (and with which header), the data rows written, and the sleeps
performed. -/
structure MainResult where
  fileCreated : Bool
  header : Option (List String)
  rows : List Row
  sleepCount : ℕ
  sleepTotal : ℕ

/-- The `main` function (app.py lines 107-172) with argument parsing and console output
abstracted away: discover URLs from the sitemap; if none were found, return
before the report file is created; otherwise create the file, write the
header, and run the measurement loop from index 1. -/
def main (env : Env) (fetch : FetchResult) (delay : ℕ) : MainResult :=
  let urls := get_urls_from_sitemap fetch
  if urls.isEmpty then
    { fileCreated := false, header := none, rows := [], sleepCount := 0, sleepTotal := 0 }
  else
    let final := runLoop env delay urls.length urls 1 initState
    { fileCreated := true
      header := some headerRow
      rows := final.rows
      sleepCount := final.sleepCount
      sleepTotal := final.sleepTotal }

/-- The loop state after the first `k` URLs have been processed: the
intermediate state of the run, used to express the crash-safety prefix
invariant. -/
def stateAfter (env : Env) (delay : ℕ) (urls : List (Option String)) (k : ℕ) : LoopState :=
  runLoop env delay urls.length (urls.take k) 1 initState

/-! ### Concrete example data shared by witnesses and counterexamples -/

/-- A minimal namespace-qualified sitemap document:
`<urlset xmlns="..."><url><loc>http://a/</loc></url></urlset>`. -/
def nsUrlDoc : XElem :=
  .node ⟨some sitemapNs, "urlset"⟩ none
    [.node ⟨some sitemapNs, "url"⟩ none
      [.node ⟨some sitemapNs, "loc"⟩ (some "http://a/") []]]

/-- The same sitemap document with the namespace omitted:
`<urlset><url><loc>http://a/</loc></url></urlset>`. -/
def plainUrlDoc : XElem :=
  .node ⟨none, "urlset"⟩ none
    [.node ⟨none, "url"⟩ none
      [.node ⟨none, "loc"⟩ (some "http://a/") []]]

/-- An environment in which every Lighthouse invocation fails because the
tool is not installed. -/
def envW : Env := ⟨fun _ => ToolRun.toolMissing, fun _ => "2026-10-12 00:00:00"⟩

/-- A successful fetch of the one-URL namespaced sitemap. -/
def fetchW : FetchResult := .ok (some nsUrlDoc)

/-- Discovery on `fetchW` finds exactly the one URL of `nsUrlDoc`. -/
theorem fetchW_urls : get_urls_from_sitemap fetchW = [some "http://a/"] := by
  simp [get_urls_from_sitemap, fetchW, nsUrlDoc, urlLocs, descL, sitemapNs,
    XElem.children, XElem.tag, XElem.text]

/-! ### Helper lemmas -/

/-- Rounding the exact value `0` gives the integer `0`. -/
theorem rndHalfEven_zero : rndHalfEven 0 = 0 := by
  norm_num [rndHalfEven]

/-- Python's `round(0, n)` is `0`. -/
theorem pyRound_zero (n : ℕ) : pyRound 0 n = 0 := by
  rw [pyRound, zero_mul, rndHalfEven_zero, Int.cast_zero, zero_div]

/-- The rows the loop appends when started at index `i` on the URL list
`us`: one row per URL, in order. -/
def rowsFor (env : Env) : List (Option String) → ℕ → List Row
  | [], _ => []
  | u :: rest, i => mkRow env i u :: rowsFor env rest (i + 1)

/-- The loop only ever appends: its final row list is the starting row list
followed by one row per remaining URL, in order. -/
theorem runLoop_rows (env : Env) (delay total : ℕ) :
    ∀ (us : List (Option String)) (i : ℕ) (s : LoopState),
      (runLoop env delay total us i s).rows = s.rows ++ rowsFor env us i := by
  intro us
  induction us with
  | nil => intro i s; simp [runLoop, rowsFor]
  | cons u rest ih =>
      intro i s
      rw [runLoop, ih]
      by_cases h : i < total <;> simp [h, rowsFor]

/-- Lemma: `rowsFor` produces exactly one row per URL. -/
theorem rowsFor_length (env : Env) :
    ∀ (us : List (Option String)) (i : ℕ), (rowsFor env us i).length = us.length := by
  intro us
  induction us with
  | nil => intro i; rfl
  | cons u rest ih => intro i; simp [rowsFor, ih]

/-- The `j`-th row produced by `rowsFor` is the row of the `j`-th URL. -/
theorem rowsFor_get (env : Env) :
    ∀ (us : List (Option String)) (i j : ℕ),
      (rowsFor env us i)[j]? = (us[j]?).map (mkRow env (i + j)) := by
  intro us
  induction us with
  | nil => intro i j; simp [rowsFor]
  | cons u rest ih =>
      intro i j
      cases j with
      | zero => simp [rowsFor]
      | succ j =>
          have hn : i + 1 + j = i + (j + 1) := by omega
          simpa [rowsFor, hn] using ih (i + 1) j

/-- Processing only the first `k` URLs produces the first `k` rows. -/
theorem rowsFor_take (env : Env) :
    ∀ (us : List (Option String)) (k i : ℕ),
      rowsFor env (us.take k) i = (rowsFor env us i).take k := by
  intro us
  induction us with
  | nil => intro k i; simp [rowsFor]
  | cons u rest ih =>
      intro k i
      cases k with
      | zero => simp [rowsFor]
      | succ k => simp [rowsFor, ih]

/-- Whether every element of the forest, recursively, has an unqualified
tag: the shape of a sitemap produced without the sitemaps.org namespace. -/
def nsFreeL : List XElem → Bool
  | [] => true
  | .node t _ cs :: rest => decide (t.uri = none) && nsFreeL cs && nsFreeL rest

/-- In an entirely unqualified forest, every descendant has an unqualified
tag. -/
theorem nsFree_no_ns_descendant (l : List XElem) (h : nsFreeL l = true) :
    ∀ e ∈ descL l, e.tag.uri = none := by
  match l with
  | [] => simp [descL]
  | .node t x cs :: rest =>
      rw [nsFreeL] at h
      simp only [Bool.and_eq_true, decide_eq_true_eq] at h
      obtain ⟨⟨ht, hcs⟩, hrest⟩ := h
      intro e he
      rw [descL] at he
      simp only [List.mem_cons, List.mem_append] at he
      rcases he with rfl | he | he
      · exact ht
      · exact nsFree_no_ns_descendant cs hcs e he
      · exact nsFree_no_ns_descendant rest hrest e he

/-- Sleep accounting for the loop: when the loop runs over the suffix of
the URL list starting at 1-based index `i` (so `i + us.length = total + 1`),
it sleeps once per iteration whose index is below `total`, i.e. `total - i`
more times, each for `delay` seconds. -/
theorem runLoop_sleeps (env : Env) (delay total : ℕ) :
    ∀ (us : List (Option String)) (i : ℕ) (s : LoopState), i + us.length = total + 1 →
      (runLoop env delay total us i s).sleepCount = s.sleepCount + (total - i) ∧
      (runLoop env delay total us i s).sleepTotal = s.sleepTotal + (total - i) * delay := by
  intro us
  induction us with
  | nil =>
      intro i s h
      simp only [List.length_nil, Nat.add_zero] at h
      have : total - i = 0 := by omega
      simp [runLoop, this]
  | cons u rest ih =>
      intro i s h
      simp only [List.length_cons] at h
      rw [runLoop]
      by_cases hi : i < total
      · simp only [hi, if_true]
        refine ⟨?_, ?_⟩
        · rw [(ih (i + 1) _ (by omega)).1]
          show s.sleepCount + 1 + (total - (i + 1)) = s.sleepCount + (total - i)
          omega
        · rw [(ih (i + 1) _ (by omega)).2]
          show s.sleepTotal + delay + (total - (i + 1)) * delay
              = s.sleepTotal + (total - i) * delay
          have hk : total - i = (total - (i + 1)) + 1 := by omega
          rw [hk]; ring
      · simp only [hi, if_false]
        refine ⟨?_, ?_⟩
        · rw [(ih (i + 1) _ (by omega)).1]
          show s.sleepCount + (total - (i + 1)) = s.sleepCount + (total - i)
          omega
        · rw [(ih (i + 1) _ (by omega)).2]
          show s.sleepTotal + (total - (i + 1)) * delay
              = s.sleepTotal + (total - i) * delay
          have h0 : total - (i + 1) = 0 := by omega
          have h1 : total - i = 0 := by omega
          rw [h0, h1]

/-- When discovery finds at least one URL, `main` takes the measuring
branch: the file is created with the header, and the rows are those of the
full loop. -/
theorem main_nonempty_eq (env : Env) (delay : ℕ) (fetch : FetchResult)
    (h : get_urls_from_sitemap fetch ≠ []) :
    (main env fetch delay).fileCreated = true ∧
    (main env fetch delay).header = some headerRow ∧
    (main env fetch delay).rows = rowsFor env (get_urls_from_sitemap fetch) 1 ∧
    (main env fetch delay).sleepCount
        = (runLoop env delay (get_urls_from_sitemap fetch).length
            (get_urls_from_sitemap fetch) 1 initState).sleepCount ∧
    (main env fetch delay).sleepTotal
        = (runLoop env delay (get_urls_from_sitemap fetch).length
            (get_urls_from_sitemap fetch) 1 initState).sleepTotal := by
  have hb : (get_urls_from_sitemap fetch).isEmpty = false := by
    cases hu : get_urls_from_sitemap fetch with
    | nil => exact absurd hu h
    | cons a l => rfl
  simp only [main, hb, Bool.false_eq_true, if_false]
  refine ⟨by trivial, by trivial, ?_, by trivial, by trivial⟩
  rw [runLoop_rows]
  simp [initState]

/-! ### Claims -/

/-- Claim C2: for every URL whose audit invocation fails (process timeout,
external tool not found, output unparseable as JSON, or any other
invocation/extraction error), `run_lighthouse` returns a `MetricSet` with
the sentinel `Error` in all five metric fields — never a partial-metric
record mixing numbers and sentinels (when extraction succeeds, all five
fields are numbers) — and the orchestration loop still yields one row per
discovered URL, for every environment, so a failure never aborts the
run. -/
theorem failed_audit_yields_all_error (r : ToolRun)
    (h : ∀ d : LighthouseData, r ≠ ToolRun.wrote (RawOutput.parsed d)) :
    ((run_lighthouse r).metrics = default_error_values ∧
      (run_lighthouse r).metrics.performance = MetricVal.err ∧
      (run_lighthouse r).metrics.speed_index = MetricVal.err ∧
      (run_lighthouse r).metrics.lcp = MetricVal.err ∧
      (run_lighthouse r).metrics.inp = MetricVal.err ∧
      (run_lighthouse r).metrics.cls = MetricVal.err) ∧
    (∀ d : LighthouseData, ∃ p si l n c : ℚ,
      (run_lighthouse (ToolRun.wrote (RawOutput.parsed d))).metrics =
        ⟨MetricVal.num p, MetricVal.num si, MetricVal.num l,
         MetricVal.num n, MetricVal.num c⟩) ∧
    (∀ (env : Env) (delay : ℕ) (fetch : FetchResult),
      (main env fetch delay).rows.length = (get_urls_from_sitemap fetch).length) := by
  refine ⟨?_, ?_, ?_⟩
  · have hm : (run_lighthouse r).metrics = default_error_values := by
      cases r with
      | timeout w => rfl
      | toolMissing => rfl
      | wroteNothing => rfl
      | wrote raw =>
          cases raw with
          | malformed => rfl
          | unextractable => rfl
          | parsed d => exact absurd rfl (h d)
    rw [hm]
    exact ⟨rfl, rfl, rfl, rfl, rfl, rfl⟩
  · intro d
    exact ⟨_, _, _, _, _, rfl⟩
  · intro env delay fetch
    by_cases hu : get_urls_from_sitemap fetch = []
    · simp [main, hu]
    · rw [(main_nonempty_eq env delay fetch hu).2.2.1, rowsFor_length]

/-- Witness for C2: a timed-out invocation produces the all-`Error`
record. -/
theorem failed_audit_yields_all_error_witness :
    (run_lighthouse (ToolRun.timeout false)).metrics = default_error_values :=
  (failed_audit_yields_all_error (ToolRun.timeout false)
    (fun _ hd => ToolRun.noConfusion hd)).1.1

/-- Claim C3: metric extraction computes performance as category score
× 100 rounded to 1 decimal (0 if absent); speed index and LCP as raw value
÷ 1000 rounded to 2 decimals (0 if absent); INP as the raw
interaction-to-next-paint value if present, else the raw first-input-delay
value, else 0, rounded to 2 decimals with no unit conversion; CLS as the
raw value rounded to 3 decimals (0 if absent). Every absent field yields
its documented default rather than raising. -/
theorem metric_extraction_spec (d : LighthouseData) :
    (∀ s, d.perfScore = some s →
      (extractMetrics d).performance = MetricVal.num (pyRound (s * 100) 1)) ∧
    (d.perfScore = none → (extractMetrics d).performance = MetricVal.num 0) ∧
    (∀ v, d.speedIndex = some v →
      (extractMetrics d).speed_index = MetricVal.num (pyRound (v / 1000) 2)) ∧
    (d.speedIndex = none → (extractMetrics d).speed_index = MetricVal.num 0) ∧
    (∀ v, d.lcpRaw = some v →
      (extractMetrics d).lcp = MetricVal.num (pyRound (v / 1000) 2)) ∧
    (d.lcpRaw = none → (extractMetrics d).lcp = MetricVal.num 0) ∧
    (∀ v, d.inpRaw = some v →
      (extractMetrics d).inp = MetricVal.num (pyRound v 2)) ∧
    (∀ v, d.inpRaw = none → d.fidRaw = some v →
      (extractMetrics d).inp = MetricVal.num (pyRound v 2)) ∧
    (d.inpRaw = none → d.fidRaw = none → (extractMetrics d).inp = MetricVal.num 0) ∧
    (∀ v, d.clsRaw = some v → (extractMetrics d).cls = MetricVal.num (pyRound v 3)) ∧
    (d.clsRaw = none → (extractMetrics d).cls = MetricVal.num 0) := by
  refine ⟨fun s hs => ?_, fun h0 => ?_, fun v hv => ?_, fun h0 => ?_, fun v hv => ?_,
    fun h0 => ?_, fun v hv => ?_, fun v hi hf => ?_, fun hi hf => ?_, fun v hv => ?_,
    fun h0 => ?_⟩ <;>
  simp [extractMetrics, *, pyRound_zero]

/-- Witness for C3: extraction on a concrete artifact whose performance
score is present. -/
theorem metric_extraction_spec_witness :
    (extractMetrics
      { perfScore := some (873/1000), speedIndex := some 1234, lcpRaw := some 2500,
        inpRaw := none, fidRaw := some 18, clsRaw := some (1/100) }).performance
      = MetricVal.num (pyRound (873/1000 * 100) 1) :=
  (metric_extraction_spec _).1 (873/1000) rfl

/-- Claim C4: the sitemap reader returns an empty list and never raises on
network error, non-success HTTP status, or malformed XML (the embedding is
a total function, so totality is by construction); and whenever discovery
yields zero URLs, the orchestrator performs no measurement and no sleep —
the run terminates without crashing. -/
theorem sitemap_failure_empty_and_no_measurement :
    (get_urls_from_sitemap FetchResult.netError = [] ∧
      get_urls_from_sitemap FetchResult.httpError = [] ∧
      get_urls_from_sitemap (FetchResult.ok none) = []) ∧
    (∀ (env : Env) (delay : ℕ) (fetch : FetchResult),
      get_urls_from_sitemap fetch = [] →
        (main env fetch delay).rows = [] ∧
        (main env fetch delay).sleepCount = 0 ∧
        (main env fetch delay).sleepTotal = 0) := by
  refine ⟨⟨rfl, rfl, rfl⟩, fun env delay fetch h => ?_⟩
  simp [main, h]

/-- Witness for C4: a network error leads to a run with no rows. -/
theorem sitemap_failure_empty_and_no_measurement_witness :
    (main envW FetchResult.netError 5).rows = [] :=
  (sitemap_failure_empty_and_no_measurement.2 envW 5 FetchResult.netError rfl).1

/-- Counterexample for C5: when the subprocess wrote the artifact but its
content is not parseable JSON, `run_lighthouse` takes a failure path
(returning the all-`Error` record) on which the artifact is NOT removed —
`os.remove` sits after `json.load`, so `JSONDecodeError` jumps over it. -/
theorem artifact_cleanup_counterexample :
    artifactWritten (ToolRun.wrote RawOutput.malformed) = true ∧
    (run_lighthouse (ToolRun.wrote RawOutput.malformed)).metrics = default_error_values ∧
    (run_lighthouse (ToolRun.wrote RawOutput.malformed)).artifactRemains = true :=
  ⟨rfl, rfl, rfl⟩

/-- Amended C5: the temporary artifact is removed exactly on the paths that
get past `json.load` — extraction success and extraction error — while on a
timeout after the artifact was written, or on a JSON parse failure, the
written artifact remains on disk. -/
theorem artifact_removed_iff_parse_succeeded (r : ToolRun) :
    (run_lighthouse r).artifactRemains = (artifactWritten r && !parseSucceeded r) := by
  cases r with
  | timeout w => cases w <;> rfl
  | toolMissing => rfl
  | wroteNothing => rfl
  | wrote raw => cases raw <;> rfl

/-- Claim C9: for the sitemap URL with host `www.example.com:443`, the
report-name domain component computed by `extract_domain` is
`example.com`. -/
theorem extract_domain_example :
    extract_domain "https://www.example.com:443/sitemap.xml" = "example.com" := by
  decide

/-- Claim C10: whenever discovery yields zero URLs, `main` returns before
the report file is opened: no file is created and no header is written. -/
theorem empty_discovery_creates_no_file (env : Env) (delay : ℕ) (fetch : FetchResult)
    (h : get_urls_from_sitemap fetch = []) :
    (main env fetch delay).fileCreated = false ∧ (main env fetch delay).header = none := by
  simp [main, h]

/-- Witness for C10: a failed fetch creates no report file. -/
theorem empty_discovery_creates_no_file_witness :
    (main envW FetchResult.netError 5).fileCreated = false :=
  (empty_discovery_creates_no_file envW 5 FetchResult.netError rfl).1

/-- Discovery on `fetchW` is nonempty. -/
theorem fetchW_urls_ne_nil : get_urls_from_sitemap fetchW ≠ [] := by
  rw [fetchW_urls]
  exact List.cons_ne_nil _ _

/-- Claim C1: for every run over a discovered URL list, the report contains
exactly one row per discovered URL, in sitemap document order, and after
any number `k` of processed URLs the rows present are exactly the first `k`
rows of the final report — a prefix of fully-formed rows (a row is a whole
`Row` value; the loop appends one per URL with open/write/close). -/
theorem report_rows_match_urls (env : Env) (delay : ℕ) (fetch : FetchResult)
    (h : get_urls_from_sitemap fetch ≠ []) :
    (main env fetch delay).rows.length = (get_urls_from_sitemap fetch).length ∧
    (∀ j : ℕ, ((main env fetch delay).rows[j]?).map Row.url
        = (get_urls_from_sitemap fetch)[j]?) ∧
    (∀ k : ℕ, (stateAfter env delay (get_urls_from_sitemap fetch) k).rows
        = (main env fetch delay).rows.take k) := by
  obtain ⟨-, -, hrows, -, -⟩ := main_nonempty_eq env delay fetch h
  refine ⟨?_, ?_, ?_⟩
  · rw [hrows, rowsFor_length]
  · intro j
    rw [hrows, rowsFor_get]
    cases (get_urls_from_sitemap fetch)[j]? <;> simp [mkRow]
  · intro k
    rw [hrows, stateAfter, runLoop_rows]
    simp [initState, rowsFor_take]

/-- Witness for C1: on the one-URL sitemap the report has exactly one
row. -/
theorem report_rows_match_urls_witness :
    get_urls_from_sitemap fetchW ≠ [] ∧
    (main envW fetchW 5).rows.length = (get_urls_from_sitemap fetchW).length :=
  ⟨fetchW_urls_ne_nil, (report_rows_match_urls envW 5 fetchW fetchW_urls_ne_nil).1⟩

/-- Counterexample for C6: the header `main` writes is not the claimed
`URL, Performance Score, Speed Index (s), LCP (s), INP (ms), CLS,
Measurement Time` — the source's final column header is the Indonesian
`Waktu Pengukuran`, not `Measurement Time`. -/
theorem header_text_counterexample :
    (main envW fetchW 5).header = some headerRow ∧
    headerRow ≠ ["URL", "Performance Score", "Speed Index (s)", "LCP (s)", "INP (ms)",
      "CLS", "Measurement Time"] := by
  refine ⟨(main_nonempty_eq envW 5 fetchW fetchW_urls_ne_nil).2.1, ?_⟩
  decide

/-- Amended C6: for every run that creates a report, the header row written
first has exactly the column order and header text `URL, Performance Score,
Speed Index (s), LCP (s), INP (ms), CLS, Waktu Pengukuran` — the first six
column headers are as claimed but the final one is the source's Indonesian
`Waktu Pengukuran` (measurement time), and this field order and header text
are fixed across runs. -/
theorem header_row_fixed (env : Env) (delay : ℕ) (fetch : FetchResult)
    (h : get_urls_from_sitemap fetch ≠ []) :
    (main env fetch delay).fileCreated = true ∧
    (main env fetch delay).header = some ["URL", "Performance Score", "Speed Index (s)",
      "LCP (s)", "INP (ms)", "CLS", "Waktu Pengukuran"] := by
  obtain ⟨hc, hh, -, -, -⟩ := main_nonempty_eq env delay fetch h
  exact ⟨hc, by rw [hh, headerRow]⟩

/-- Witness for amended C6: the one-URL run creates the report with the
fixed header. -/
theorem header_row_fixed_witness :
    (main envW fetchW 5).header = some ["URL", "Performance Score", "Speed Index (s)",
      "LCP (s)", "INP (ms)", "CLS", "Waktu Pengukuran"] :=
  (header_row_fixed envW 5 fetchW fetchW_urls_ne_nil).2

/-- Counterexample for C7: a sitemap omitting the sitemaps.org namespace
does NOT yield the same URL list as the namespaced form — the namespaced
one-URL document yields its URL, the identical unqualified document yields
the empty list, because `findall('.//ns:url/ns:loc', namespace)` only
matches namespace-qualified tags. -/
theorem unqualified_sitemap_counterexample :
    get_urls_from_sitemap (FetchResult.ok (some nsUrlDoc)) = [some "http://a/"] ∧
    get_urls_from_sitemap (FetchResult.ok (some plainUrlDoc)) = [] ∧
    get_urls_from_sitemap (FetchResult.ok (some plainUrlDoc))
      ≠ get_urls_from_sitemap (FetchResult.ok (some nsUrlDoc)) := by
  have h1 : get_urls_from_sitemap (FetchResult.ok (some nsUrlDoc)) = [some "http://a/"] := by
    simpa [fetchW] using fetchW_urls
  have h2 : get_urls_from_sitemap (FetchResult.ok (some plainUrlDoc)) = [] := by
    simp [get_urls_from_sitemap, plainUrlDoc, urlLocs, descL, sitemapNs,
      XElem.children, XElem.tag]
  refine ⟨h1, h2, ?_⟩
  rw [h1, h2]
  simp

/-- In a forest whose elements all have unqualified tags, nothing matches
the namespaced `url` tag. -/
theorem filter_url_eq_nil (l : List XElem) (hall : ∀ e ∈ l, e.tag.uri = none) :
    l.filter (fun e => e.tag = Tag.mk (some sitemapNs) "url") = [] := by
  induction l with
  | nil => rfl
  | cons a t ih =>
      have ha : a.tag.uri = none := hall a (by simp)
      have hne : ¬(a.tag = Tag.mk (some sitemapNs) "url") := by
        intro hcontra
        rw [hcontra] at ha
        cases ha
      have hd : (decide (a.tag = Tag.mk (some sitemapNs) "url")) = false := by
        simp [hne]
      rw [List.filter_cons]
      simp only [hd, Bool.false_eq_true, if_false]
      exact ih (fun e he => hall e (by simp [he]))

/-- Amended C7: the Sitemap Reader extracts `url/loc` entries only in their
namespace-qualified form; a well-formed sitemap whose tags are all
unqualified (the form some producers emit) yields the empty URL list
rather than the same list as the namespaced form. -/
theorem namespaced_extraction_only (root : XElem) (h : nsFreeL [root] = true) :
    get_urls_from_sitemap (FetchResult.ok (some root)) = [] := by
  have hall : ∀ e ∈ descL root.children, e.tag.uri = none := by
    intro e he
    apply nsFree_no_ns_descendant [root] h
    cases root with
    | node t x cs =>
        simp only [XElem.children] at he
        rw [descL]
        simp only [List.mem_cons, List.mem_append]
        exact Or.inr (Or.inl he)
  simp only [get_urls_from_sitemap, urlLocs]
  rw [filter_url_eq_nil _ hall]
  rfl

/-- Witness for amended C7: the unqualified one-URL sitemap document yields
no URLs. -/
theorem namespaced_extraction_only_witness :
    nsFreeL [plainUrlDoc] = true ∧
    get_urls_from_sitemap (FetchResult.ok (some plainUrlDoc)) = [] :=
  ⟨by simp [nsFreeL, plainUrlDoc],
   namespaced_extraction_only plainUrlDoc (by simp [nsFreeL, plainUrlDoc])⟩

/-- Claim C8: for every run over `N` discovered URLs with configured delay
`D`, the orchestration loop sleeps exactly `N - 1` times of `D` seconds
each — total sleep `(N - 1) * D`, and (for positive `D`) never `N * D`: a
delay occurs between consecutive measurements but none after the last
URL. -/
theorem delay_between_measurements_only (env : Env) (delay : ℕ) (fetch : FetchResult)
    (h : get_urls_from_sitemap fetch ≠ []) :
    (main env fetch delay).sleepCount = (get_urls_from_sitemap fetch).length - 1 ∧
    (main env fetch delay).sleepTotal = ((get_urls_from_sitemap fetch).length - 1) * delay ∧
    (0 < delay →
      (main env fetch delay).sleepTotal ≠ (get_urls_from_sitemap fetch).length * delay) := by
  obtain ⟨-, -, -, hc, ht⟩ := main_nonempty_eq env delay fetch h
  obtain ⟨h1, h2⟩ := runLoop_sleeps env delay (get_urls_from_sitemap fetch).length
    (get_urls_from_sitemap fetch) 1 initState (by omega)
  have hlen : 0 < (get_urls_from_sitemap fetch).length := List.length_pos.mpr h
  have hcount : (main env fetch delay).sleepCount
      = (get_urls_from_sitemap fetch).length - 1 := by
    rw [hc, h1]
    show 0 + ((get_urls_from_sitemap fetch).length - 1)
        = (get_urls_from_sitemap fetch).length - 1
    omega
  have htotal : (main env fetch delay).sleepTotal
      = ((get_urls_from_sitemap fetch).length - 1) * delay := by
    rw [ht, h2]
    show 0 + ((get_urls_from_sitemap fetch).length - 1) * delay
        = ((get_urls_from_sitemap fetch).length - 1) * delay
    omega
  refine ⟨hcount, htotal, fun hd => ?_⟩
  rw [htotal]
  exact Nat.ne_of_lt (mul_lt_mul_of_pos_right (by omega) hd)

/-- Witness for C8: the one-URL run sleeps zero times. -/
theorem delay_between_measurements_only_witness :
    (main envW fetchW 5).sleepCount = (get_urls_from_sitemap fetchW).length - 1 :=
  (delay_between_measurements_only envW 5 fetchW fetchW_urls_ne_nil).1

end PageSpeed
